import Mathlib

/-!
Verification development for the EasySync Anaplan client
(`src/anaplan/dictionary.py`, `src/anaplan/authentication.py`).

The Python source is shallowly embedded: pure routing and arithmetic become
Lean functions; each network interaction is abstracted by a parameter that
carries the server's response, and the observable effect of a method call
(URLs contacted, bodies sent, values persisted) is returned as explicit data
so its shape can be proved.
-/

namespace EasySync

/-- `AnaplanModel.parse_action_id` (dictionary.py, lines 219-235): dispatch on
the first three characters of the action id to a collection keyword, returning
an error string for unrecognized leading digits. -/
def parse_action_id (action_id : String) : String :=
  if action_id.take 3 = "112" then "imports" ++ "/" ++ action_id
  else if action_id.take 3 = "116" then "exports" ++ "/" ++ action_id
  else if action_id.take 3 = "117" then "actions" ++ "/" ++ action_id
  else if action_id.take 3 = "118" then "processes" ++ "/" ++ action_id
  else "Invalid task provided, please provide valid task"

/-- `AnaplanModel.run` (dictionary.py, lines 114-122): build the task URL from
`parse_action_id`, POST to it, and return the parsed response. The POST and
JSON parsing are abstracted by `server : String → α`, the response the remote
end gives for each URL; the returned pair is (URL contacted, parsed response
handed back to the caller). -/
def run {α : Type} (base : String) (server : String → α) (action_id : String) :
    String × α :=
  let url := base ++ parse_action_id action_id ++ "/tasks"
  (url, server url)

/-! ## Chunked upload (`AnaplanModel.upload`, dictionary.py lines 182-217)

The file opened in text mode is modelled as the list of the byte lengths of
its lines (each line includes its newline, so lines are nonempty and the
stat size is their sum). The chunking loop calls Python's
`f.readlines(sizehint)`, which collects whole lines until their cumulative
length reaches the hint, so one call may return more than `sizehint` bytes. -/

/-- `self.chunk_size` set in `AnaplanModel.__init__` (dictionary.py line 51). -/
def chunk_size : Nat := 50 * 1048576

/-- One `f.readlines(hint)` call: the batch of whole lines read (CPython stops
after the cumulative length of the lines read so far reaches `hint`) paired
with the lines still unread. -/
def readlinesHint (hint : Nat) : List Nat → List Nat × List Nat
  | [] => ([], [])
  | l :: ls =>
    if hint ≤ l then ([l], ls)
    else ((l :: (readlinesHint (hint - l) ls).1), (readlinesHint (hint - l) ls).2)

theorem readlinesHint_snd_length_lt (hint l : Nat) (ls : List Nat) :
    (readlinesHint hint (l :: ls)).2.length < (l :: ls).length := by
  induction ls generalizing hint l with
  | nil =>
    simp only [readlinesHint]
    split
    · simp
    · simp [readlinesHint]
  | cons m ms ih =>
    simp only [readlinesHint]
    split
    · simp
    · exact Nat.lt_succ_of_lt (ih (hint - l) m)

/-- The `while chunked_data:` loop of `upload`: successive `readlines` batches
until the file is exhausted; each batch is sent as one chunk. -/
def chunkFile (hint : Nat) : List Nat → List (List Nat)
  | [] => []
  | l :: ls =>
    (readlinesHint hint (l :: ls)).1 :: chunkFile hint (readlinesHint hint (l :: ls)).2
termination_by ls => ls.length
decreasing_by
  simpa using readlinesHint_snd_length_lt hint l ls

/-- What `upload` returns to its caller. -/
inductive UploadResult
  | completeResponse
  | rejectedMessage (msg : String)
deriving DecidableEq

/-- Observable effects of one `upload(file_id, file)` call: the `chunkCount`
field of the begin body, the PUT chunk calls as (zero-based index, bytes sent)
in transmission order, the `chunkCount` field of the complete body if the
complete POST happens, and the value returned. -/
structure UploadTrace where
  begin_chunkCount : Int
  chunkCalls : List (Nat × Nat)
  complete_chunkCount : Option ℚ
  result : UploadResult
deriving DecidableEq

/-- `AnaplanModel.upload` (dictionary.py lines 182-217). `beginOk` is
`begin_upload_request.ok`; `fileLines` the line lengths of the local file.
`file_size` is `Path(file).stat().st_size`; the complete body carries
`file_size / self.chunk_size`, Python true division, embedded as the exact
rational. -/
def upload (beginOk : Bool) (fileLines : List Nat) : UploadTrace :=
  let file_size := fileLines.sum
  if beginOk then
    { begin_chunkCount := -1
      chunkCalls := ((chunkFile chunk_size fileLines).map List.sum).enum
      complete_chunkCount := some ((file_size : ℚ) / (chunk_size : ℚ))
      result := .completeResponse }
  else
    { begin_chunkCount := -1
      chunkCalls := []
      complete_chunkCount := none
      result := .rejectedMessage "Unable to upload, please check fileID and metadata" }

/-! ## Authentication (`authentication.py`) -/

/-- How one `AnaplanAuth.validate(token)` call ends (authentication.py lines
172-187): a raised `SystemError`, a raised `KeyError` from a missing
`tokenInfo` field, an explicit `return token_value`, or Python's implicit
`return None` when control falls off the end. -/
inductive ValidateOutcome
  | raisedSystemError
  | raisedKeyError
  | returnedToken (value : String)
  | returnedNone
deriving DecidableEq

/-- The raw token payload handed to `validate`: its `status` field and, when
the `tokenInfo.tokenValue` path exists, that value. -/
structure TokenPayload where
  status : String
  tokenValue : Option String

/-- `AnaplanAuth.validate` (authentication.py lines 172-187). `validateMsg` is
the `statusMessage` field of the response of the GET to the validation
endpoint, issued only once the token value has been assembled. -/
def validate (token : TokenPayload) (validateMsg : String) : ValidateOutcome :=
  if token.status = "FAILURE_BAD_CREDENTIAL" then .raisedSystemError
  else
    match token.tokenValue with
    | none => .raisedKeyError
    | some v =>
      if validateMsg = "Token validated" then .returnedToken ("AnaplanAuthToken " ++ v)
      else .returnedNone

/-- How one `AnaplanAuth.get_token()` call ends (authentication.py lines
54-84): a value returned together with the `_expires_at` instant recorded,
a propagated exception, or the invalid-method message (which records no
expiry). -/
inductive GetTokenOutcome
  | returned (token : Option String) (expires_at : Nat)
  | raised
  | invalidMethod (msg : String)
deriving DecidableEq

/-- `AnaplanAuth.get_token` (authentication.py lines 54-84). Each credential
branch performs its exchange, whose outcome is `vo` for the two
validate-based branches and `oauthAccessToken` for the oauth one, then sets
`self._expires_at = datetime.utcnow() + timedelta(minutes=35)` and returns.
`now` is the `utcnow()` reading at that assignment; no further network call
separates it from the return, so it is also the instant of return. -/
def get_token (via : String) (vo : ValidateOutcome) (oauthAccessToken : String)
    (now : Nat) : GetTokenOutcome :=
  if via = "basic" then
    match vo with
    | .raisedSystemError => .raised
    | .raisedKeyError => .raised
    | .returnedToken v => .returned (some v) (now + 35 * 60)
    | .returnedNone => .returned none (now + 35 * 60)
  else if via = "certificate" then
    match vo with
    | .raisedSystemError => .raised
    | .raisedKeyError => .raised
    | .returnedToken v => .returned (some v) (now + 35 * 60)
    | .returnedNone => .returned none (now + 35 * 60)
  else if via = "oauth_refresh" then
    .returned (some ("AnaplanAuthToken " ++ oauthAccessToken)) (now + 35 * 60)
  else
    .invalidMethod "Invalid authentication method; please select basic, certificate or oauth type"

/-- One primitive step performed by `AnaplanAuth.oauth_refresh`
(authentication.py lines 147-170): the POST to the token endpoint, the
`set_key` write into the env file, and the `return j` handing the response
to the caller. -/
inductive OAuthOp
  | httpExchange
  | setKey (key value : String)
  | returnValue (accessToken refreshToken : String)
deriving DecidableEq

/-- The straight-line operation sequence of a successful
`AnaplanAuth.oauth_refresh(file_env)` call whose exchange response carries
`access_token = access` and `refresh_token = newRefresh`: POST, then
`set_key(file_env, 'refresh_token', new_refresh_token)`, then `return j`. -/
def oauth_refresh_trace (access newRefresh : String) : List OAuthOp :=
  [.httpExchange, .setKey "refresh_token" newRefresh, .returnValue access newRefresh]

/-- Effect of one operation on the backing store's `refresh_token` value. -/
def applyOp (store : String) : OAuthOp → String
  | .setKey k v => if k = "refresh_token" then v else store
  | _ => store

/-- Backing-store `refresh_token` value after executing a list of operations
from initial value `init`. -/
def storeAfter (init : String) (ops : List OAuthOp) : String :=
  ops.foldl applyOp init

/-! ## Model headers (`AnaplanModel.__init__` / `get_token`, dictionary.py
lines 36-58) -/

/-- The login collaborator: `tokens k` is the value its `get_token()` yields
on its (zero-based) k-th invocation. -/
structure LoginStream where
  tokens : Nat → String

/-- The header-relevant state of an `AnaplanModel`: how many times
`login.get_token()` has been called, the cached `_token_value`, and the
`Authorization` values of the four header dicts built in `__init__`. -/
structure ModelState where
  calls : Nat
  token_value : String
  header_auth : String
  task_header_auth : String
  json_header_auth : String
  file_header_auth : String
deriving DecidableEq

/-- `AnaplanModel.__init__` (dictionary.py lines 36-51): fetch a token once
and bake it into every header dict. -/
def ModelState.init (login : LoginStream) : ModelState :=
  let t := login.tokens 0
  { calls := 1, token_value := t, header_auth := t, task_header_auth := t,
    json_header_auth := t, file_header_auth := t }

/-- `AnaplanModel.get_token` (dictionary.py lines 53-58): refresh
`_token_value` (and `expires_at`); the header dicts are left untouched. -/
def ModelState.refreshToken (login : LoginStream) (m : ModelState) : ModelState :=
  { m with token_value := login.tokens m.calls, calls := m.calls + 1 }

/-- The `Authorization` value `AnaplanModel.monitor` attaches to its GET
requests (dictionary.py lines 135, 140: `headers=self.task_header`). -/
def monitor_auth (m : ModelState) : String := m.task_header_auth

/-! ## Task monitoring (`AnaplanModel.monitor` / `status`, dictionary.py
lines 124-152) -/

/-- The `task` object of the response to `GET .../tasks/{taskId}`; only its
`taskState` field matters here. -/
structure TaskDetail where
  taskState : String
deriving DecidableEq

/-- Server state for one action id: the `tasks` array returned by
`GET .../tasks` (task ids in server order) and the detail returned for each
task id. -/
structure ActionServer where
  tasks : List String
  detail : String → TaskDetail

/-- Python list indexing `xs[i]` with negative-index wrap-around; `none`
models the raised `IndexError`. -/
def pyIndex (xs : List String) (i : Int) : Option String :=
  let n : Int := xs.length
  let j := if i < 0 then i + n else i
  if 0 ≤ j ∧ j < n then xs.get? j.toNat else none

/-- `AnaplanModel.monitor` (dictionary.py lines 124-142): list the tasks,
take `tasks[-1]['taskId']`, fetch that task's detail and return its `task`
object; `none` models the `IndexError` on an empty task list. -/
def monitor (srv : ActionServer) : Option TaskDetail :=
  match pyIndex srv.tasks (-1) with
  | none => none
  | some latest_task => some (srv.detail latest_task)

/-- `AnaplanModel.status` (dictionary.py lines 144-152): reuse `monitor` and
project out `taskState`. -/
def status (srv : ActionServer) : Option String :=
  (monitor srv).map TaskDetail.taskState

/-- A concrete two-task server used to witness the monitoring theorems. -/
def demoServer : ActionServer :=
  { tasks := ["taskA", "taskB"]
    detail := fun id => if id = "taskB" then ⟨"COMPLETE"⟩ else ⟨"IN_PROGRESS"⟩ }

/-- A login collaborator whose first token differs from every later one, used
to exhibit stale cached headers. -/
def twoTokenLogin : LoginStream :=
  ⟨fun k => if k = 0 then "AnaplanAuthToken t0" else "AnaplanAuthToken t1"⟩

/-! ## Theorems -/

theorem pyIndex_neg_one (xs : List String) (h : xs ≠ []) :
    pyIndex xs (-1) = some (xs.getLast h) := by
  have hlen : 0 < xs.length := List.length_pos.mpr h
  simp only [pyIndex]
  norm_num
  refine ⟨hlen, ?_⟩
  have ht : ((-1 : Int) + xs.length).toNat = xs.length - 1 := by omega
  rw [ht, List.getElem?_eq_getElem (by omega), List.getLast_eq_getElem]

/-- C1: the claim says the completion call carries chunkCount equal to the
true chunk count ceil(F/B), 3 for a 120 MiB file. The code computes
`file_size / self.chunk_size` with Python true division, so a 120 MiB file
(three 40 MiB lines) gets a completion call carrying chunkCount = 12/5 = 2.4,
which is not 3 and not a whole number at all. -/
theorem upload_completion_chunkCount_is_division :
    (upload true [41943040, 41943040, 41943040]).complete_chunkCount
        = some ((12 : ℚ) / 5) ∧
      ((12 : ℚ) / 5) ≠ (3 : ℚ) ∧
      (∀ n : ℕ, (n : ℚ) ≠ (12 : ℚ) / 5) := by
  refine ⟨?_, by norm_num, ?_⟩
  · simp [upload, chunk_size]
    norm_num
  · intro n hn
    have h5 : (n : ℚ) * 5 = 12 := by rw [hn]; norm_num
    have h6 : (n * 5 : ℕ) = 12 := by exact_mod_cast h5
    omega

/-- C2: the claim says every authenticated request issued after
`AnaplanModel.get_token()` carries the refreshed token. The code only updates
`_token_value`; the header dicts built in `__init__` keep the construction-time
token, so against a login whose refresh yields a new token value, `monitor`
still sends the old one. -/
theorem model_headers_stale_after_get_token :
    monitor_auth (ModelState.refreshToken twoTokenLogin (ModelState.init twoTokenLogin))
        = "AnaplanAuthToken t0" ∧
    (ModelState.refreshToken twoTokenLogin (ModelState.init twoTokenLogin)).token_value
        = "AnaplanAuthToken t1" ∧
    monitor_auth (ModelState.refreshToken twoTokenLogin (ModelState.init twoTokenLogin))
        ≠ (ModelState.refreshToken twoTokenLogin (ModelState.init twoTokenLogin)).token_value := by
  refine ⟨rfl, ?_, ?_⟩ <;> decide

/-- C3: the claim says every non-success validation outcome raises. The code
raises only on status FAILURE_BAD_CREDENTIAL (first conjunct, the claim's
particular case); a payload passing that check whose validation-endpoint
response is not "Token validated" falls off the end of `validate` and silently
returns None (second conjunct), contradicting the claimed fail-fast raise. -/
theorem validate_silently_returns_none_on_unvalidated :
    validate ⟨"FAILURE_BAD_CREDENTIAL", some "x"⟩ "Token validated"
        = ValidateOutcome.raisedSystemError ∧
    validate ⟨"SUCCESS", some "abc"⟩ "Token expired" = ValidateOutcome.returnedNone := by
  constructor <;> decide

/-- C4: the claim says chunks never exceed the 50 MiB bound and number
ceil(F/B). The code chunks with `readlines(sizehint)`, which returns whole
lines, so a 120 MiB file consisting of one line is transmitted as a single
chunk of 125829120 bytes: one PUT instead of ceil(F/B) = 3, with the chunk
over the bound. -/
theorem upload_chunking_by_readlines_violates_bound :
    (upload true [125829120]).chunkCalls = [(0, 125829120)] ∧
    chunk_size < 125829120 ∧
    (125829120 + chunk_size - 1) / chunk_size = 3 ∧
    (upload true [125829120]).chunkCalls.length = 1 := by
  refine ⟨?_, by norm_num [chunk_size], by norm_num [chunk_size], ?_⟩
  · simp [upload, chunkFile, readlinesHint, chunk_size]
  · simp [upload, chunkFile, readlinesHint, chunk_size]

/-- C5: every upload's begin body carries chunkCount = -1, and when the begin
POST is rejected (`begin_upload_request.ok` false) no chunk PUT and no
completion POST is issued and the rejection message is returned. -/
theorem upload_begin_sentinel_and_rejected_aborts (beginOk : Bool) (fileLines : List Nat) :
    (upload beginOk fileLines).begin_chunkCount = -1 ∧
    (beginOk = false →
      (upload beginOk fileLines).chunkCalls = [] ∧
      (upload beginOk fileLines).complete_chunkCount = none ∧
      (upload beginOk fileLines).result =
        UploadResult.rejectedMessage "Unable to upload, please check fileID and metadata") := by
  cases beginOk <;> simp [upload]

theorem upload_begin_sentinel_and_rejected_aborts_witness :
    (upload false [5]).begin_chunkCount = -1 ∧
    (upload false [5]).chunkCalls = [] ∧
    (upload false [5]).complete_chunkCount = none ∧
    (upload false [5]).result =
      UploadResult.rejectedMessage "Unable to upload, please check fileID and metadata" :=
  ⟨(upload_begin_sentinel_and_rejected_aborts false [5]).1,
   (upload_begin_sentinel_and_rejected_aborts false [5]).2 rfl⟩

/-- C6: in `AnaplanAuth.oauth_refresh` the `set_key` persisting the newly
issued refresh secret happens before the `return`: on every prefix of the
call's operation sequence that already contains the return, the backing store
holds the new secret, and after the whole call the store equals the new
secret, never the prior one. -/
theorem oauth_refresh_persists_secret_before_return (init access newRefresh : String)
    (pre suf : List OAuthOp)
    (h : oauth_refresh_trace access newRefresh = pre ++ suf)
    (hret : OAuthOp.returnValue access newRefresh ∈ pre) :
    storeAfter init pre = newRefresh ∧
    storeAfter init (oauth_refresh_trace access newRefresh) = newRefresh := by
  refine ⟨?_, by simp [oauth_refresh_trace, storeAfter, applyOp]⟩
  rcases pre with _ | ⟨a, _ | ⟨b, _ | ⟨c, rest⟩⟩⟩
  · simp at hret
  · simp [oauth_refresh_trace] at h
    obtain ⟨ha, -⟩ := h
    subst ha
    simp at hret
  · simp [oauth_refresh_trace] at h
    obtain ⟨ha, hb, -⟩ := h
    subst ha; subst hb
    simp at hret
  · simp [oauth_refresh_trace] at h
    obtain ⟨ha, hb, hc, hrest, -⟩ := h
    subst ha; subst hb; subst hc; subst hrest
    simp [storeAfter, applyOp]

theorem oauth_refresh_persists_secret_before_return_witness :
    storeAfter "oldSecret" (oauth_refresh_trace "acc" "newSecret") = "newSecret" :=
  (oauth_refresh_persists_secret_before_return "oldSecret" "acc" "newSecret"
      (oauth_refresh_trace "acc" "newSecret") [] (by simp)
      (by simp [oauth_refresh_trace])).1

/-- C7: `monitor` fetches the detail of `tasks[-1]`, the task with the highest
index of the server-returned list, and `status` is the `taskState` field of
the task object `monitor` returns, for the same server state. -/
theorem monitor_selects_last_task_and_status_projects (srv : ActionServer)
    (h : srv.tasks ≠ []) :
    monitor srv = some (srv.detail (srv.tasks.getLast h)) ∧
    status srv = (monitor srv).map TaskDetail.taskState ∧
    status srv = some ((srv.detail (srv.tasks.getLast h)).taskState) := by
  have hm : monitor srv = some (srv.detail (srv.tasks.getLast h)) := by
    simp [monitor, pyIndex_neg_one srv.tasks h]
  exact ⟨hm, rfl, by simp [status, hm]⟩

theorem monitor_selects_last_task_and_status_projects_witness :
    demoServer.tasks ≠ [] ∧ status demoServer = some "COMPLETE" := by
  refine ⟨by decide, ?_⟩
  rw [(monitor_selects_last_task_and_status_projects demoServer (by decide)).2.2]
  decide

/-- C8: `parse_action_id` maps any id whose first three characters are "118"
to processes/{id}, and any id with an unrecognized leading triple to the
invalid-task message, a returned value of the total function, not a raise. -/
theorem parse_action_id_classifies_and_rejects (goodId badId : String)
    (hgood : goodId.take 3 = "118")
    (h1 : badId.take 3 ≠ "112") (h2 : badId.take 3 ≠ "116")
    (h3 : badId.take 3 ≠ "117") (h4 : badId.take 3 ≠ "118") :
    parse_action_id goodId = "processes" ++ "/" ++ goodId ∧
    parse_action_id badId = "Invalid task provided, please provide valid task" := by
  constructor
  · simp [parse_action_id, hgood]
  · simp [parse_action_id, h1, h2, h3, h4]

theorem parse_action_id_classifies_and_rejects_witness :
    parse_action_id "118000000000" = "processes" ++ "/" ++ "118000000000" ∧
    parse_action_id "999000000000" = "Invalid task provided, please provide valid task" :=
  parse_action_id_classifies_and_rejects "118000000000" "999000000000"
    (by decide) (by decide) (by decide) (by decide) (by decide)

/-- C9: for each of the three credential kinds, a `get_token` call that
returns a token records an expiry instant strictly in the future at the
instant of return, by the fixed 35-minute forward margin. -/
theorem get_token_expiry_strictly_future (via : String) (vo : ValidateOutcome)
    (acc : String) (now : Nat)
    (hvia : via = "basic" ∨ via = "certificate" ∨ via = "oauth_refresh")
    (v : String) (e : Nat)
    (hsucc : get_token via vo acc now = .returned (some v) e) :
    now < e ∧ e = now + 35 * 60 := by
  rcases hvia with h | h | h <;> subst h <;>
    cases vo <;> simp [get_token] at hsucc <;> omega

theorem get_token_expiry_strictly_future_witness :
    get_token "basic" (ValidateOutcome.returnedToken "AnaplanAuthToken abc") "x" 1000
        = GetTokenOutcome.returned (some "AnaplanAuthToken abc") 3100 ∧
    1000 < 3100 :=
  ⟨by decide,
   (get_token_expiry_strictly_future "basic"
      (ValidateOutcome.returnedToken "AnaplanAuthToken abc") "x" 1000
      (Or.inl rfl) "AnaplanAuthToken abc" 3100 (by decide)).1⟩

/-- C10: for an action id with an unrecognized leading triple, `run` does not
surface the classification error: it splices the error-message string into
the request URL, issues the POST there, and hands the parsed response back to
the caller. -/
theorem run_concatenates_error_into_url {α : Type} (base : String)
    (server : String → α) (badId : String)
    (h1 : badId.take 3 ≠ "112") (h2 : badId.take 3 ≠ "116")
    (h3 : badId.take 3 ≠ "117") (h4 : badId.take 3 ≠ "118") :
    (run base server badId).1
        = base ++ "Invalid task provided, please provide valid task" ++ "/tasks" ∧
    (run base server badId).2
        = server (base ++ "Invalid task provided, please provide valid task" ++ "/tasks") := by
  constructor <;> simp [run, parse_action_id, h1, h2, h3, h4]

theorem run_concatenates_error_into_url_witness :
    (run "https://api.anaplan.com/2/0/workspaces/ws/models/m/" (fun u => u) "999000000000").1
        = "https://api.anaplan.com/2/0/workspaces/ws/models/m/"
          ++ "Invalid task provided, please provide valid task" ++ "/tasks" :=
  (run_concatenates_error_into_url "https://api.anaplan.com/2/0/workspaces/ws/models/m/"
    (fun u => u) "999000000000" (by decide) (by decide) (by decide) (by decide)).1

end EasySync
